import Mathlib

/-!
Shallow embedding of `asserver.py`, a multi-user text broadcast service
("shared chat room") running over an SSH transport (asyncssh).

Modelling conventions:
- a connected client process (`asyncssh.SSHServerProcess`) is identified by a
  natural number `sid`; its two output sinks (`process.stdout`,
  `process.stderr`) are buffers held in the global `ServerState`, indexed by
  `sid`, together with a per-sink failure flag modelling a write that raises;
- the server's own console streams (`sys.stdout` / `sys.stderr`) are the
  `serverOut` / `serverErr` buffers;
- Python exceptions are values of `Exn`; a statement that can raise is a
  function returning `ServerState × Option Exn` (the state keeps all mutations
  performed before the exception, as Python's in-place mutation does);
- the interactive input stream `process.stdin` is a list of read outcomes
  `InEvent`: a line, a `TerminalSizeChanged`, a `BreakReceived`, or some other
  exception with its kind and message; end of the list is end-of-input;
- `exitCalls` and `regTrace` are ghost instrumentation recording the calls to
  `process.exit` and the registry mutations, and `stdinReadStarted` records
  whether the interactive read loop was ever entered.
-/

namespace AssPy

/-- Test whether a character is one of the characters of the Python strip set
`"\r\n"`. -/
def isCRLFChar (c : Char) : Bool := c == '\r' || c == '\n'

/-- Model of Python `s.strip("\r\n")`: removes ALL leading and trailing
characters drawn from the set \x7b CR, LF \x7d, from BOTH ends of the string. -/
def strip_crlf (s : String) : String :=
  String.mk (((s.data.dropWhile isCRLFChar).reverse.dropWhile isCRLFChar).reverse)

/-- Spec-side definition, for comparison only (not from the source): strips
only TRAILING CR/LF characters, as the words of claim C4 ("any trailing line
terminator stripped") describe. -/
def rstrip_crlf (s : String) : String :=
  String.mk ((s.data.reverse.dropWhile isCRLFChar).reverse)

/-- Python exceptions that the server code can see. -/
inductive Exn where
  | valueError
  | oserror
  | breakReceived
  | terminalSizeChanged
  | otherErr (kind msg : String)
deriving DecidableEq, Repr

/-- Outcome of one read from `process.stdin` during the `async for`. -/
inductive InEvent where
  | line (l : String)
  | resized
  | brk
  | readErr (kind msg : String)
deriving DecidableEq, Repr

/-- Ghost record of a mutation of `connected_clients`. -/
inductive RegEvent where
  | reg (sid : Nat)
  | unreg (sid : Nat)
deriving DecidableEq, Repr

/-- Global server state: the `connected_clients` registry (list of process
ids, in insertion order), each process's two output sinks with their failure
flags, the server console streams, and ghost instrumentation. -/
structure ServerState where
  connected_clients : List Nat
  stdoutBuf : Nat → List String
  stderrBuf : Nat → List String
  stdoutFails : Nat → Bool
  stderrFails : Nat → Bool
  serverOut : List String
  serverErr : List String
  exitCalls : List (Nat × Nat)
  regTrace : List RegEvent
  stdinReadStarted : Bool

/-- Model of `c.stdout.write(msg)` for client `i`: appends to that client's
primary sink buffer, or raises `OSError` when the sink is failing. -/
def writeClientOut (st : ServerState) (i : Nat) (msg : String) :
    ServerState × Option Exn :=
  if st.stdoutFails i then (st, some Exn.oserror)
  else
    ({ st with stdoutBuf := fun j => if j = i then st.stdoutBuf i ++ [msg]
                                     else st.stdoutBuf j }, none)

/-- Model of `c.stderr.write(msg)` for client `i`: appends to that client's
diagnostic sink buffer, or raises `OSError` when the sink is failing. -/
def writeClientErr (st : ServerState) (i : Nat) (msg : String) :
    ServerState × Option Exn :=
  if st.stderrFails i then (st, some Exn.oserror)
  else
    ({ st with stderrBuf := fun j => if j = i then st.stderrBuf i ++ [msg]
                                     else st.stderrBuf j }, none)

/-- The `for c in connected_clients: c.<sink>.write(msg)` loop of `broadcast`
(asserver.py lines 45-46 and 49-50): writes `msg` to each client in turn; a
raising write aborts the loop and propagates, keeping earlier writes. -/
def broadcastLoop (sids : List Nat) (msg : String) (use_stderr : Bool)
    (st : ServerState) : ServerState × Option Exn :=
  match sids with
  | [] => (st, none)
  | i :: rest =>
    match (if use_stderr then writeClientErr st i msg else writeClientOut st i msg) with
    | (st2, none) => broadcastLoop rest msg use_stderr st2
    | (st2, some e) => (st2, some e)

/-- Model of `broadcast(msg, use_stderr)` (asserver.py lines 39-50):
`msg = msg.strip("\r\n")`, then `msg += "\r\n"` and write to every client's
stderr when `use_stderr`, else `msg += "\n"` and write to every client's
stdout. -/
def broadcast (st : ServerState) (msg : String) (use_stderr : Bool) :
    ServerState × Option Exn :=
  let m := if use_stderr then strip_crlf msg ++ "\r\n" else strip_crlf msg ++ "\n"
  broadcastLoop st.connected_clients m use_stderr st

/-- Model of `connected_clients.append(process)` (asserver.py line 53), with a
ghost trace entry. -/
def register (st : ServerState) (sid : Nat) : ServerState :=
  { st with connected_clients := st.connected_clients ++ [sid],
            regTrace := st.regTrace ++ [RegEvent.reg sid] }

/-- Model of Python `list.remove(x)`: removes the first occurrence of `x`, or
signals `ValueError` (`none`) when `x` is absent. -/
def pyListRemove (l : List Nat) (x : Nat) : Option (List Nat) :=
  match l with
  | [] => none
  | y :: rest =>
    if y = x then some rest else (pyListRemove rest x).map (fun r => y :: r)

/-- Model of `connected_clients.remove(process)` (asserver.py line 89): removes
the first occurrence and records a ghost trace entry, or raises `ValueError`
when the process is not in the registry. -/
def unregister (st : ServerState) (sid : Nat) : ServerState × Option Exn :=
  match pyListRemove st.connected_clients sid with
  | none => (st, some Exn.valueError)
  | some l =>
    ({ st with connected_clients := l,
               regTrace := st.regTrace ++ [RegEvent.unreg sid] }, none)

/-- The f-string `f"[connected] {username}\n"` (asserver.py line 57). -/
def connectedMsg (u : String) : String := "[connected] " ++ u ++ "\n"

/-- The f-string `f"[disconnected] {username}\n"` (asserver.py line 87). -/
def disconnectedMsg (u : String) : String := "[disconnected] " ++ u ++ "\n"

/-- The f-string `f"{username}: {line}\n"` (asserver.py lines 63 and 73). -/
def chatMsg (u l : String) : String := u ++ ": " ++ l ++ "\n"

/-- Python `type(e).__name__` for the modelled exceptions. -/
def exnName : Exn → String
  | Exn.valueError => "ValueError"
  | Exn.oserror => "OSError"
  | Exn.breakReceived => "BreakReceived"
  | Exn.terminalSizeChanged => "TerminalSizeChanged"
  | Exn.otherErr k _ => k

/-- Python `str(e)` for the modelled exceptions (only the message of a generic
exception matters to the claims). -/
def exnStr : Exn → String
  | Exn.otherErr _ m => m
  | _ => ""

/-- The `async for line in process.stdin` loop body (asserver.py lines 70-75):
consumes events until end-of-input (`none` exception) or the first raising
event; an empty line raises `BreakReceived(0)`; a proper line is stripped,
formatted as `f"{username}: {line}\n"`, written to the server console stdout,
and broadcast on the primary channel (the broadcast itself may raise). -/
def readLoop (st : ServerState) (username : String) (events : List InEvent) :
    ServerState × Option Exn :=
  match events with
  | [] => (st, none)
  | InEvent.resized :: _ => (st, some Exn.terminalSizeChanged)
  | InEvent.brk :: _ => (st, some Exn.breakReceived)
  | InEvent.readErr k m :: _ => (st, some (Exn.otherErr k m))
  | InEvent.line l :: rest =>
    if l = "" then (st, some Exn.breakReceived)
    else
      let msg := chatMsg username (strip_crlf l)
      let st := { st with serverOut := st.serverOut ++ [msg] }
      match broadcast st msg false with
      | (st2, none) => readLoop st2 username rest
      | (st2, some e) => (st2, some e)

/-- The `while True: try: <async for> except TerminalSizeChanged: continue
finally: break` construct (asserver.py lines 68-79). Python semantics: a
`break` executed in a `finally` clause discards the saved exception and
supersedes the `continue` issued by the except clause, so the while loop
always exits after the first pass of the `async for` and no exception (not
even `BreakReceived` or a generic error) ever escapes this construct. -/
def interactiveLoop (st : ServerState) (username : String)
    (events : List InEvent) : ServerState × Option Exn :=
  let st := { st with stdinReadStarted := true }
  let (st2, _discarded) := readLoop st username events
  (st2, none)

/-- Body of the outer `try` of `handle_connection` (asserver.py lines 56-79):
write and broadcast the arrival notice, then either broadcast the one-shot
command as a single chat line (command mode, lines 60-65) or run the
interactive read loop (lines 66-79). -/
def sessionBody (st : ServerState) (username : String) (command : Option String)
    (events : List InEvent) : ServerState × Option Exn :=
  let st := { st with serverErr := st.serverErr ++ [connectedMsg username] }
  match broadcast st (connectedMsg username) true with
  | (st2, some e) => (st2, some e)
  | (st2, none) =>
    match command with
    | some cmd =>
      let msg := chatMsg username (strip_crlf cmd)
      let st3 := { st2 with serverOut := st2.serverOut ++ [msg] }
      broadcast st3 msg false
    | none => interactiveLoop st2 username events


/-- The `finally` teardown of `handle_connection` (asserver.py lines 85-91):
`process.exit(0)`, `connected_clients.remove(process)` (whose `ValueError`,
were it raised, would propagate and skip the rest of the block), write the
departure notice to the server console and broadcast it on the diagnostic
channel. -/
def sessionTeardown (st : ServerState) (sid : Nat) (username : String) :
    ServerState × Option Exn :=
  let st3 := { st with exitCalls := st.exitCalls ++ [(sid, 0)] }
  match unregister st3 sid with
  | (st4, some e) => (st4, some e)
  | (st4, none) =>
    let st5 := { st4 with serverErr := st4.serverErr ++ [disconnectedMsg username] }
    broadcast st5 (disconnectedMsg username) true

/-- Model of `handle_connection(process)` (asserver.py lines 52-91): register
the process, run the session body under
`except BreakReceived: pass / except Exception as e: stderr.write(...)`, then
the `finally` teardown. The returned `Option Exn` is an exception propagating
out of the handler. -/
def handle_connection (st : ServerState) (sid : Nat) (username : String)
    (command : Option String) (events : List InEvent) :
    ServerState × Option Exn :=
  let st := register st sid
  let (st1, exn) := sessionBody st username command events
  let st2 :=
    match exn with
    | some Exn.breakReceived => st1
    | some e =>
      { st1 with serverErr := st1.serverErr ++
          ["An error occured: " ++ exnName e ++ " " ++ exnStr e ++ "\n"] }
    | none => st1
  sessionTeardown st2 sid username

/-- Model of Python dict lookup `config_clients[username]` over an association
list (one entry per username, as a dict has). -/
def lookupDict (d : List (String × List String)) (k : String) :
    Option (List String) :=
  match d with
  | [] => none
  | (k2, v) :: rest => if k2 = k then some v else lookupDict rest k

/-- Model of asyncssh `SSHAuthorizedKeys.validate(key, "", "")` (external
collaborator, per its contract assumed by the spec): returns a non-None result
exactly when the candidate key matches one of the authorized keys. -/
def authKeysValidate (keys : List String) (key : String) : Option String :=
  keys.find? (fun k => k == key)

/-- Model of `SSHServer.validate_public_key` (asserver.py lines 32-36):
`try: return config_clients[username].validate(key, "", "") is not None
except: return False` — the bare `except` turns the unknown-username
`KeyError` (and any other fault) into `False`. -/
def validate_public_key (config_clients : List (String × List String))
    (username key : String) : Bool :=
  match lookupDict config_clients username with
  | none => false
  | some aks => (authKeysValidate aks key).isSome

/-! ### Helper states and delivery characterizations -/

/-- Result of a fan-out on the primary channel: each client sink `j` receives
one copy of `msg` per occurrence of `j` in `sids`. -/
def deliverOut (sids : List Nat) (msg : String) (st : ServerState) : ServerState :=
  { st with stdoutBuf := fun j => st.stdoutBuf j ++ List.replicate (sids.count j) msg }

/-- Result of a fan-out on the diagnostic channel: each client sink `j`
receives one copy of `msg` per occurrence of `j` in `sids`. -/
def deliverErr (sids : List Nat) (msg : String) (st : ServerState) : ServerState :=
  { st with stderrBuf := fun j => st.stderrBuf j ++ List.replicate (sids.count j) msg }

theorem broadcastLoop_out_fine (sids : List Nat) (msg : String) (st : ServerState)
    (h : ∀ i ∈ sids, st.stdoutFails i = false) :
    broadcastLoop sids msg false st = (deliverOut sids msg st, none) := by
  induction sids generalizing st with
  | nil =>
    have hb : (fun j => st.stdoutBuf j ++ List.replicate (List.count j [] : Nat) msg)
        = st.stdoutBuf := by
      funext j; simp
    simp [broadcastLoop, deliverOut, hb]
  | cons i rest ih =>
    have hi : st.stdoutFails i = false := h i (by simp)
    have step : writeClientOut st i msg =
        ({ st with stdoutBuf := fun j => if j = i then st.stdoutBuf i ++ [msg]
                                         else st.stdoutBuf j }, none) := by
      simp [writeClientOut, hi]
    have hrest : ∀ k ∈ rest,
        ({ st with stdoutBuf := fun j => if j = i then st.stdoutBuf i ++ [msg]
                                         else st.stdoutBuf j } : ServerState).stdoutFails k
          = false := by
      intro k hk; exact h k (by simp [hk])
    have hbuf : (fun j =>
        (if j = i then st.stdoutBuf i ++ [msg] else st.stdoutBuf j)
          ++ List.replicate (rest.count j) msg)
        = fun j => st.stdoutBuf j ++ List.replicate ((i :: rest).count j) msg := by
      funext j
      by_cases hj : j = i
      · subst hj
        simp [List.count_cons_self, List.replicate_succ, List.append_assoc]
      · simp [hj, List.count_cons_of_ne hj]
    calc broadcastLoop (i :: rest) msg false st
        = broadcastLoop rest msg false
            ({ st with stdoutBuf := fun j => if j = i then st.stdoutBuf i ++ [msg]
                                             else st.stdoutBuf j }) := by
          simp [broadcastLoop, step]
      _ = (deliverOut (i :: rest) msg st, none) := by
          rw [ih _ hrest]
          simp only [deliverOut]
          congr 1
          rw [hbuf]

theorem broadcastLoop_err_fine (sids : List Nat) (msg : String) (st : ServerState)
    (h : ∀ i ∈ sids, st.stderrFails i = false) :
    broadcastLoop sids msg true st = (deliverErr sids msg st, none) := by
  induction sids generalizing st with
  | nil =>
    have hb : (fun j => st.stderrBuf j ++ List.replicate (List.count j [] : Nat) msg)
        = st.stderrBuf := by
      funext j; simp
    simp [broadcastLoop, deliverErr, hb]
  | cons i rest ih =>
    have hi : st.stderrFails i = false := h i (by simp)
    have step : writeClientErr st i msg =
        ({ st with stderrBuf := fun j => if j = i then st.stderrBuf i ++ [msg]
                                         else st.stderrBuf j }, none) := by
      simp [writeClientErr, hi]
    have hrest : ∀ k ∈ rest,
        ({ st with stderrBuf := fun j => if j = i then st.stderrBuf i ++ [msg]
                                         else st.stderrBuf j } : ServerState).stderrFails k
          = false := by
      intro k hk; exact h k (by simp [hk])
    have hbuf : (fun j =>
        (if j = i then st.stderrBuf i ++ [msg] else st.stderrBuf j)
          ++ List.replicate (rest.count j) msg)
        = fun j => st.stderrBuf j ++ List.replicate ((i :: rest).count j) msg := by
      funext j
      by_cases hj : j = i
      · subst hj
        simp [List.count_cons_self, List.replicate_succ, List.append_assoc]
      · simp [hj, List.count_cons_of_ne hj]
    calc broadcastLoop (i :: rest) msg true st
        = broadcastLoop rest msg true
            ({ st with stderrBuf := fun j => if j = i then st.stderrBuf i ++ [msg]
                                             else st.stderrBuf j }) := by
          simp [broadcastLoop, step]
      _ = (deliverErr (i :: rest) msg st, none) := by
          rw [ih _ hrest]
          simp only [deliverErr]
          congr 1
          rw [hbuf]

/-- Fan-out over the registry, primary channel, when every sink is healthy. -/
theorem broadcast_out_fine (st : ServerState) (msg : String)
    (h : ∀ i, st.stdoutFails i = false) :
    broadcast st msg false =
      (deliverOut st.connected_clients (strip_crlf msg ++ "\n") st, none) := by
  unfold broadcast
  exact broadcastLoop_out_fine _ _ _ (fun i _ => h i)

/-- Fan-out over the registry, diagnostic channel, when every sink is healthy. -/
theorem broadcast_err_fine (st : ServerState) (msg : String)
    (h : ∀ i, st.stderrFails i = false) :
    broadcast st msg true =
      (deliverErr st.connected_clients (strip_crlf msg ++ "\r\n") st, none) := by
  unfold broadcast
  exact broadcastLoop_err_fine _ _ _ (fun i _ => h i)

/-- Removing the session appended at the end, when it was not registered
before, restores the original registry. -/
theorem pyListRemove_append (l : List Nat) (sid : Nat) (h : sid ∉ l) :
    pyListRemove (l ++ [sid]) sid = some l := by
  induction l with
  | nil => simp [pyListRemove]
  | cons y rest ih =>
    have hy : y ≠ sid := by
      intro hc; exact h (by simp [hc])
    have hr : sid ∉ rest := by
      intro hc; exact h (by simp [hc])
    simp [pyListRemove, hy, ih hr]

/-! ### Frame lemmas: what each operation leaves untouched -/

theorem broadcastLoop_frame (sids : List Nat) (msg : String) (b : Bool)
    (st : ServerState) :
    (broadcastLoop sids msg b st).1.connected_clients = st.connected_clients ∧
    (broadcastLoop sids msg b st).1.regTrace = st.regTrace ∧
    (broadcastLoop sids msg b st).1.exitCalls = st.exitCalls ∧
    (broadcastLoop sids msg b st).1.stdinReadStarted = st.stdinReadStarted ∧
    (broadcastLoop sids msg b st).1.serverOut = st.serverOut ∧
    (broadcastLoop sids msg b st).1.serverErr = st.serverErr ∧
    (broadcastLoop sids msg b st).1.stdoutFails = st.stdoutFails ∧
    (broadcastLoop sids msg b st).1.stderrFails = st.stderrFails := by
  induction sids generalizing st with
  | nil => simp [broadcastLoop]
  | cons i rest ih =>
    cases b with
    | false =>
      by_cases hf : st.stdoutFails i
      · simp [broadcastLoop, writeClientOut, hf]
      · simp only [broadcastLoop, writeClientOut, hf, Bool.false_eq_true,
          if_false, Bool.if_false_left]
        exact ih _
    | true =>
      by_cases hf : st.stderrFails i
      · simp [broadcastLoop, writeClientErr, hf]
      · simp only [broadcastLoop, writeClientErr, hf, Bool.false_eq_true,
          if_false, Bool.if_false_left]
        exact ih _

theorem broadcast_frame (st : ServerState) (msg : String) (b : Bool) :
    (broadcast st msg b).1.connected_clients = st.connected_clients ∧
    (broadcast st msg b).1.regTrace = st.regTrace ∧
    (broadcast st msg b).1.exitCalls = st.exitCalls ∧
    (broadcast st msg b).1.stdinReadStarted = st.stdinReadStarted ∧
    (broadcast st msg b).1.serverOut = st.serverOut ∧
    (broadcast st msg b).1.serverErr = st.serverErr ∧
    (broadcast st msg b).1.stdoutFails = st.stdoutFails ∧
    (broadcast st msg b).1.stderrFails = st.stderrFails := by
  unfold broadcast
  exact broadcastLoop_frame _ _ _ _

/-- A primary-channel fan-out never touches any diagnostic sink. -/
theorem broadcastLoop_out_stderrBuf (sids : List Nat) (msg : String)
    (st : ServerState) :
    (broadcastLoop sids msg false st).1.stderrBuf = st.stderrBuf := by
  induction sids generalizing st with
  | nil => simp [broadcastLoop]
  | cons i rest ih =>
    by_cases hf : st.stdoutFails i
    · simp [broadcastLoop, writeClientOut, hf]
    · simp only [broadcastLoop, writeClientOut, hf, Bool.false_eq_true,
        if_false, Bool.if_false_left]
      exact ih _

theorem readLoop_frame (events : List InEvent) (u : String) (st : ServerState) :
    (readLoop st u events).1.connected_clients = st.connected_clients ∧
    (readLoop st u events).1.regTrace = st.regTrace ∧
    (readLoop st u events).1.exitCalls = st.exitCalls ∧
    (readLoop st u events).1.stdinReadStarted = st.stdinReadStarted ∧
    (readLoop st u events).1.stdoutFails = st.stdoutFails ∧
    (readLoop st u events).1.stderrFails = st.stderrFails ∧
    (readLoop st u events).1.stderrBuf = st.stderrBuf := by
  induction events generalizing st with
  | nil => simp [readLoop]
  | cons ev rest ih =>
    cases ev with
    | resized => simp [readLoop]
    | brk => simp [readLoop]
    | readErr k m => simp [readLoop]
    | line l =>
      by_cases hl : l = ""
      · simp [readLoop, hl]
      · simp only [readLoop, hl, if_false]
        rcases hbc : broadcast
            { st with serverOut := st.serverOut ++ [chatMsg u (strip_crlf l)] }
            (chatMsg u (strip_crlf l)) false with ⟨st2, e⟩
        have hfr := broadcast_frame
          { st with serverOut := st.serverOut ++ [chatMsg u (strip_crlf l)] }
          (chatMsg u (strip_crlf l)) false
        have hsb := broadcastLoop_out_stderrBuf
          ({ st with serverOut := st.serverOut ++ [chatMsg u (strip_crlf l)] }
            : ServerState).connected_clients
          (strip_crlf (chatMsg u (strip_crlf l)) ++ "\n")
          { st with serverOut := st.serverOut ++ [chatMsg u (strip_crlf l)] }
        rw [hbc] at hfr
        have hsb2 : st2.stderrBuf = st.stderrBuf := by
          have : (broadcast
              { st with serverOut := st.serverOut ++ [chatMsg u (strip_crlf l)] }
              (chatMsg u (strip_crlf l)) false).1.stderrBuf = st.stderrBuf := hsb
          rw [hbc] at this
          exact this
        cases e with
        | none =>
          simp only []
          have := ih st2
          constructor
          · rw [this.1, hfr.1]
          constructor
          · rw [this.2.1, hfr.2.1]
          constructor
          · rw [this.2.2.1, hfr.2.2.1]
          constructor
          · rw [this.2.2.2.1, hfr.2.2.2.1]
          constructor
          · rw [this.2.2.2.2.1, hfr.2.2.2.2.2.2.1]
          constructor
          · rw [this.2.2.2.2.2.1, hfr.2.2.2.2.2.2.2]
          · rw [this.2.2.2.2.2.2, hsb2]
        | some e' =>
          simp only []
          exact ⟨hfr.1, hfr.2.1, hfr.2.2.1, hfr.2.2.2.1,
            hfr.2.2.2.2.2.2.1, hfr.2.2.2.2.2.2.2, hsb2⟩

theorem sessionBody_frame (st : ServerState) (u : String) (cmd : Option String)
    (evs : List InEvent) :
    (sessionBody st u cmd evs).1.connected_clients = st.connected_clients ∧
    (sessionBody st u cmd evs).1.regTrace = st.regTrace ∧
    (sessionBody st u cmd evs).1.exitCalls = st.exitCalls := by
  unfold sessionBody
  rcases hbc : broadcast { st with serverErr := st.serverErr ++ [connectedMsg u] }
      (connectedMsg u) true with ⟨st1, e⟩
  have hfr := broadcast_frame { st with serverErr := st.serverErr ++ [connectedMsg u] }
      (connectedMsg u) true
  rw [hbc] at hfr
  cases e with
  | some e' =>
    simp only [hbc]
    exact ⟨hfr.1, hfr.2.1, hfr.2.2.1⟩
  | none =>
    simp only [hbc]
    cases cmd with
    | some c =>
      rcases hbc2 : broadcast
          { st1 with serverOut := st1.serverOut ++ [chatMsg u (strip_crlf c)] }
          (chatMsg u (strip_crlf c)) false with ⟨st2, e2⟩
      have hfr2 := broadcast_frame
          { st1 with serverOut := st1.serverOut ++ [chatMsg u (strip_crlf c)] }
          (chatMsg u (strip_crlf c)) false
      rw [hbc2] at hfr2
      simp only [hbc2]
      exact ⟨hfr2.1.trans hfr.1, hfr2.2.1.trans hfr.2.1, hfr2.2.2.1.trans hfr.2.2.1⟩
    | none =>
      have hrd := readLoop_frame evs u { st1 with stdinReadStarted := true }
      simp only [interactiveLoop]
      exact ⟨hrd.1.trans hfr.1, hrd.2.1.trans hfr.2.1, hrd.2.2.1.trans hfr.2.2.1⟩

theorem sessionTeardown_registry (st : ServerState) (sid : Nat) (u : String)
    (pre : List Nat) (hcc : st.connected_clients = pre ++ [sid])
    (hfresh : sid ∉ pre) :
    (sessionTeardown st sid u).1.connected_clients = pre ∧
    (sessionTeardown st sid u).1.regTrace = st.regTrace ++ [RegEvent.unreg sid] ∧
    (sessionTeardown st sid u).1.exitCalls = st.exitCalls ++ [(sid, 0)] := by
  unfold sessionTeardown unregister
  dsimp only
  rw [hcc, pyListRemove_append pre sid hfresh]
  dsimp only
  refine ⟨?_, ?_, ?_⟩
  · rw [(broadcast_frame _ _ _).1]
  · rw [(broadcast_frame _ _ _).2.1]
  · rw [(broadcast_frame _ _ _).2.2.1]

/-- Composition helper: the teardown run from any state whose registry is the
original one with `sid` appended restores the original registry and closes the
ghost trace. -/
theorem teardown_after (st st2 : ServerState) (sid : Nat) (u : String)
    (hcc : st2.connected_clients = st.connected_clients ++ [sid])
    (htr : st2.regTrace = st.regTrace ++ [RegEvent.reg sid])
    (hex : st2.exitCalls = st.exitCalls)
    (hfresh : sid ∉ st.connected_clients) :
    (sessionTeardown st2 sid u).1.connected_clients = st.connected_clients ∧
    (sessionTeardown st2 sid u).1.regTrace
      = st.regTrace ++ [RegEvent.reg sid, RegEvent.unreg sid] ∧
    (sessionTeardown st2 sid u).1.exitCalls = st.exitCalls ++ [(sid, 0)] := by
  have h3 := sessionTeardown_registry st2 sid u st.connected_clients hcc hfresh
  refine ⟨h3.1, ?_, ?_⟩
  · rw [h3.2.1, htr]
    simp
  · rw [h3.2.2, hex]

theorem handle_connection_registry (st : ServerState) (sid : Nat) (u : String)
    (cmd : Option String) (evs : List InEvent)
    (hfresh : sid ∉ st.connected_clients) :
    (handle_connection st sid u cmd evs).1.connected_clients
      = st.connected_clients ∧
    (handle_connection st sid u cmd evs).1.regTrace
      = st.regTrace ++ [RegEvent.reg sid, RegEvent.unreg sid] ∧
    (handle_connection st sid u cmd evs).1.exitCalls
      = st.exitCalls ++ [(sid, 0)] := by
  have hfr := sessionBody_frame (register st sid) u cmd evs
  unfold handle_connection
  rcases hsb : sessionBody (register st sid) u cmd evs with ⟨st1, exn⟩
  rw [hsb] at hfr
  have hcc1 : st1.connected_clients = st.connected_clients ++ [sid] := by
    simpa [register] using hfr.1
  have htr1 : st1.regTrace = st.regTrace ++ [RegEvent.reg sid] := by
    simpa [register] using hfr.2.1
  have hex1 : st1.exitCalls = st.exitCalls := by
    simpa [register] using hfr.2.2
  dsimp only
  rw [hsb]
  dsimp only
  cases exn with
  | none => exact teardown_after st st1 sid u hcc1 htr1 hex1 hfresh
  | some e =>
    cases e <;> exact teardown_after st _ sid u hcc1 htr1 hex1 hfresh

/-- Full-state description of the teardown when the registry is the original
one plus the departing session and every diagnostic sink is healthy: exit is
recorded, the session is removed, and the departure notice goes to the server
console and to every remaining client's diagnostic sink. -/
theorem sessionTeardown_spec (st : ServerState) (sid : Nat) (u : String)
    (pre : List Nat) (hcc : st.connected_clients = pre ++ [sid])
    (hfresh : sid ∉ pre) (herr : ∀ i, st.stderrFails i = false) :
    sessionTeardown st sid u =
      (deliverErr pre (strip_crlf (disconnectedMsg u) ++ "\r\n")
        { st with connected_clients := pre,
                  exitCalls := st.exitCalls ++ [(sid, 0)],
                  regTrace := st.regTrace ++ [RegEvent.unreg sid],
                  serverErr := st.serverErr ++ [disconnectedMsg u] }, none) := by
  unfold sessionTeardown unregister
  dsimp only
  rw [hcc, pyListRemove_append pre sid hfresh]
  dsimp only
  exact broadcast_err_fine _ _ herr

/-- Master lemma: an interactive session whose read-loop pass mutates nothing
and ends at once (end-of-input, a break, an empty first line, a resize as
first outcome, or any other first-read fault) performs exactly: registration,
arrival notice to the server console and to every registered diagnostic sink
(its own included), then the teardown — with no error entry anywhere, because
the `break` in the loop's `finally` clause discards the exception before the
outer handlers can see it. -/
theorem handle_connection_abort (st : ServerState) (sid : Nat) (u : String)
    (events : List InEvent) (eo : Option Exn)
    (hread : ∀ s : ServerState, readLoop s u events = (s, eo))
    (hfresh : sid ∉ st.connected_clients)
    (herr : ∀ i, st.stderrFails i = false) :
    handle_connection st sid u none events =
      (deliverErr st.connected_clients (strip_crlf (disconnectedMsg u) ++ "\r\n")
        { deliverErr (st.connected_clients ++ [sid])
            (strip_crlf (connectedMsg u) ++ "\r\n")
            { st with connected_clients := st.connected_clients ++ [sid],
                      regTrace := st.regTrace ++ [RegEvent.reg sid],
                      serverErr := st.serverErr ++ [connectedMsg u] } with
          connected_clients := st.connected_clients,
          stdinReadStarted := true,
          exitCalls := st.exitCalls ++ [(sid, 0)],
          regTrace := st.regTrace ++ [RegEvent.reg sid, RegEvent.unreg sid],
          serverErr := st.serverErr ++ [connectedMsg u, disconnectedMsg u] },
        none) := by
  have hsb : sessionBody (register st sid) u none events =
      ({ deliverErr (st.connected_clients ++ [sid])
           (strip_crlf (connectedMsg u) ++ "\r\n")
           { st with connected_clients := st.connected_clients ++ [sid],
                     regTrace := st.regTrace ++ [RegEvent.reg sid],
                     serverErr := st.serverErr ++ [connectedMsg u] } with
         stdinReadStarted := true }, none) := by
    unfold sessionBody register
    dsimp only
    rw [broadcast_err_fine
      { st with connected_clients := st.connected_clients ++ [sid],
                regTrace := st.regTrace ++ [RegEvent.reg sid],
                serverErr := st.serverErr ++ [connectedMsg u] }
      (connectedMsg u) herr]
    dsimp only
    unfold interactiveLoop
    dsimp only
    rw [hread]
  unfold handle_connection
  dsimp only
  rw [hsb]
  dsimp only
  refine (sessionTeardown_spec _ sid u st.connected_clients ?_ hfresh ?_).trans ?_
  · rfl
  · exact herr
  · simp [List.append_assoc, deliverErr]

/-- Evaluation: an empty first line makes the read loop raise
`BreakReceived(0)` at once, mutating nothing (asserver.py line 71). -/
theorem readLoop_empty_line (s : ServerState) (u : String) :
    readLoop s u [InEvent.line ""] = (s, some Exn.breakReceived) := by
  simp [readLoop]

/-- Evaluation: a break signal ends the read loop at once, mutating nothing. -/
theorem readLoop_brk (s : ServerState) (u : String) :
    readLoop s u [InEvent.brk] = (s, some Exn.breakReceived) := rfl

/-- Evaluation: a first-read fault of any other kind ends the read loop at
once, mutating nothing. -/
theorem readLoop_readErr (s : ServerState) (u k m : String) :
    readLoop s u [InEvent.readErr k m] = (s, some (Exn.otherErr k m)) := rfl

/-- Evaluation: a resize notification ends the read-loop pass at once with
`TerminalSizeChanged`, mutating nothing — whatever events follow it. -/
theorem readLoop_resized (s : ServerState) (u : String) (rest : List InEvent) :
    readLoop s u (InEvent.resized :: rest) = (s, some Exn.terminalSizeChanged) :=
  rfl

/-- Master lemma: an interactive session that reads exactly one non-empty line
and then end-of-input performs: registration, arrival notice, one chat
broadcast of the stripped line on the primary channel net of the server
console echo, then the teardown. -/
theorem handle_connection_one_line (st : ServerState) (sid : Nat) (u l : String)
    (hl : ¬ l = "")
    (hfresh : sid ∉ st.connected_clients)
    (hout : ∀ i, st.stdoutFails i = false)
    (herr : ∀ i, st.stderrFails i = false) :
    handle_connection st sid u none [InEvent.line l] =
      (deliverErr st.connected_clients (strip_crlf (disconnectedMsg u) ++ "\r\n")
        { deliverOut (st.connected_clients ++ [sid])
            (strip_crlf (chatMsg u (strip_crlf l)) ++ "\n")
            (deliverErr (st.connected_clients ++ [sid])
              (strip_crlf (connectedMsg u) ++ "\r\n")
              { st with connected_clients := st.connected_clients ++ [sid],
                        regTrace := st.regTrace ++ [RegEvent.reg sid],
                        serverErr := st.serverErr ++ [connectedMsg u] }) with
          connected_clients := st.connected_clients,
          stdinReadStarted := true,
          serverOut := st.serverOut ++ [chatMsg u (strip_crlf l)],
          exitCalls := st.exitCalls ++ [(sid, 0)],
          regTrace := st.regTrace ++ [RegEvent.reg sid, RegEvent.unreg sid],
          serverErr := st.serverErr ++ [connectedMsg u, disconnectedMsg u] },
        none) := by
  have hsb : sessionBody (register st sid) u none [InEvent.line l] =
      ({ deliverOut (st.connected_clients ++ [sid])
           (strip_crlf (chatMsg u (strip_crlf l)) ++ "\n")
           (deliverErr (st.connected_clients ++ [sid])
             (strip_crlf (connectedMsg u) ++ "\r\n")
             { st with connected_clients := st.connected_clients ++ [sid],
                       regTrace := st.regTrace ++ [RegEvent.reg sid],
                       serverErr := st.serverErr ++ [connectedMsg u] }) with
         stdinReadStarted := true,
         serverOut := st.serverOut ++ [chatMsg u (strip_crlf l)] }, none) := by
    unfold sessionBody register
    dsimp only
    rw [broadcast_err_fine
      { st with connected_clients := st.connected_clients ++ [sid],
                regTrace := st.regTrace ++ [RegEvent.reg sid],
                serverErr := st.serverErr ++ [connectedMsg u] }
      (connectedMsg u) herr]
    dsimp only
    unfold interactiveLoop readLoop
    dsimp only
    rw [if_neg hl]
    rw [broadcast_out_fine
      { deliverErr (st.connected_clients ++ [sid])
          (strip_crlf (connectedMsg u) ++ "\r\n")
          { st with connected_clients := st.connected_clients ++ [sid],
                    regTrace := st.regTrace ++ [RegEvent.reg sid],
                    serverErr := st.serverErr ++ [connectedMsg u] } with
        stdinReadStarted := true,
        serverOut :=
          (deliverErr (st.connected_clients ++ [sid])
            (strip_crlf (connectedMsg u) ++ "\r\n")
            { st with connected_clients := st.connected_clients ++ [sid],
                      regTrace := st.regTrace ++ [RegEvent.reg sid],
                      serverErr := st.serverErr ++ [connectedMsg u] }).serverOut
            ++ [chatMsg u (strip_crlf l)] }
      (chatMsg u (strip_crlf l)) hout]
    dsimp only
    simp only [readLoop]
    simp [deliverOut, deliverErr, List.append_assoc]
  unfold handle_connection
  dsimp only
  rw [hsb]
  dsimp only
  refine (sessionTeardown_spec _ sid u st.connected_clients ?_ hfresh ?_).trans ?_
  · rfl
  · exact herr
  · simp [List.append_assoc, deliverErr, deliverOut]

/-- Master lemma: a session that arrives with a one-shot command broadcasts
the arrival notice and then exactly one primary-channel chat message built
from the stripped command, never enters the interactive read loop, and tears
down — whatever its input stream holds. -/
theorem handle_connection_command (st : ServerState) (sid : Nat)
    (u cmd : String) (events : List InEvent)
    (hfresh : sid ∉ st.connected_clients)
    (hout : ∀ i, st.stdoutFails i = false)
    (herr : ∀ i, st.stderrFails i = false) :
    handle_connection st sid u (some cmd) events =
      (deliverErr st.connected_clients (strip_crlf (disconnectedMsg u) ++ "\r\n")
        { deliverOut (st.connected_clients ++ [sid])
            (strip_crlf (chatMsg u (strip_crlf cmd)) ++ "\n")
            (deliverErr (st.connected_clients ++ [sid])
              (strip_crlf (connectedMsg u) ++ "\r\n")
              { st with connected_clients := st.connected_clients ++ [sid],
                        regTrace := st.regTrace ++ [RegEvent.reg sid],
                        serverErr := st.serverErr ++ [connectedMsg u] }) with
          connected_clients := st.connected_clients,
          serverOut := st.serverOut ++ [chatMsg u (strip_crlf cmd)],
          exitCalls := st.exitCalls ++ [(sid, 0)],
          regTrace := st.regTrace ++ [RegEvent.reg sid, RegEvent.unreg sid],
          serverErr := st.serverErr ++ [connectedMsg u, disconnectedMsg u] },
        none) := by
  have hsb : sessionBody (register st sid) u (some cmd) events =
      ({ deliverOut (st.connected_clients ++ [sid])
           (strip_crlf (chatMsg u (strip_crlf cmd)) ++ "\n")
           (deliverErr (st.connected_clients ++ [sid])
             (strip_crlf (connectedMsg u) ++ "\r\n")
             { st with connected_clients := st.connected_clients ++ [sid],
                       regTrace := st.regTrace ++ [RegEvent.reg sid],
                       serverErr := st.serverErr ++ [connectedMsg u] }) with
         serverOut := st.serverOut ++ [chatMsg u (strip_crlf cmd)] }, none) := by
    unfold sessionBody register
    dsimp only
    rw [broadcast_err_fine
      { st with connected_clients := st.connected_clients ++ [sid],
                regTrace := st.regTrace ++ [RegEvent.reg sid],
                serverErr := st.serverErr ++ [connectedMsg u] }
      (connectedMsg u) herr]
    dsimp only
    rw [broadcast_out_fine
      { deliverErr (st.connected_clients ++ [sid])
          (strip_crlf (connectedMsg u) ++ "\r\n")
          { st with connected_clients := st.connected_clients ++ [sid],
                    regTrace := st.regTrace ++ [RegEvent.reg sid],
                    serverErr := st.serverErr ++ [connectedMsg u] } with
        serverOut :=
          (deliverErr (st.connected_clients ++ [sid])
            (strip_crlf (connectedMsg u) ++ "\r\n")
            { st with connected_clients := st.connected_clients ++ [sid],
                      regTrace := st.regTrace ++ [RegEvent.reg sid],
                      serverErr := st.serverErr ++ [connectedMsg u] }).serverOut
            ++ [chatMsg u (strip_crlf cmd)] }
      (chatMsg u (strip_crlf cmd)) hout]
    simp [deliverOut, deliverErr, List.append_assoc]
  unfold handle_connection
  dsimp only
  rw [hsb]
  dsimp only
  refine (sessionTeardown_spec _ sid u st.connected_clients ?_ hfresh ?_).trans ?_
  · rfl
  · exact herr
  · simp [List.append_assoc, deliverErr, deliverOut]

/-- Python `list.remove` on an absent element signals `ValueError`. -/
theorem pyListRemove_absent (l : List Nat) (x : Nat) (h : x ∉ l) :
    pyListRemove l x = none := by
  induction l with
  | nil => rfl
  | cons y rest ih =>
    have hy : y ≠ x := by
      intro hc; exact h (by simp [hc])
    have hr : x ∉ rest := by
      intro hc; exact h (by simp [hc])
    simp [pyListRemove, hy, ih hr]

/-- Delivery with a failing recipient: the write loop delivers to the
recipients before the first failing one, then the write's exception aborts the
loop — recipients after the failing one receive nothing. -/
theorem broadcastLoop_out_firstFail (pre : List Nat) (bad : Nat)
    (post : List Nat) (msg : String) (st : ServerState)
    (hpre : ∀ i ∈ pre, st.stdoutFails i = false)
    (hbad : st.stdoutFails bad = true) :
    broadcastLoop (pre ++ bad :: post) msg false st =
      (deliverOut pre msg st, some Exn.oserror) := by
  induction pre generalizing st with
  | nil =>
    have hb : (fun j => st.stdoutBuf j
        ++ List.replicate (List.count j ([] : List Nat)) msg) = st.stdoutBuf := by
      funext j; simp
    simp [broadcastLoop, writeClientOut, hbad, deliverOut, hb]
  | cons i rest ih =>
    have hi : st.stdoutFails i = false := hpre i (by simp)
    have step : writeClientOut st i msg =
        ({ st with stdoutBuf := fun j => if j = i then st.stdoutBuf i ++ [msg]
                                         else st.stdoutBuf j }, none) := by
      simp [writeClientOut, hi]
    have hrest : ∀ k ∈ rest,
        ({ st with stdoutBuf := fun j => if j = i then st.stdoutBuf i ++ [msg]
                                         else st.stdoutBuf j } : ServerState).stdoutFails k
          = false := by
      intro k hk; exact hpre k (by simp [hk])
    have hbuf : (fun j =>
        (if j = i then st.stdoutBuf i ++ [msg] else st.stdoutBuf j)
          ++ List.replicate (rest.count j) msg)
        = fun j => st.stdoutBuf j ++ List.replicate ((i :: rest).count j) msg := by
      funext j
      by_cases hj : j = i
      · subst hj
        simp [List.count_cons_self, List.replicate_succ, List.append_assoc]
      · simp [hj, List.count_cons_of_ne hj]
    calc broadcastLoop ((i :: rest) ++ bad :: post) msg false st
        = broadcastLoop (rest ++ bad :: post) msg false
            ({ st with stdoutBuf := fun j => if j = i then st.stdoutBuf i ++ [msg]
                                             else st.stdoutBuf j }) := by
          simp [broadcastLoop, step]
      _ = (deliverOut (i :: rest) msg st, some Exn.oserror) := by
          rw [ih _ hrest hbad]
          simp only [deliverOut]
          congr 1
          rw [hbuf]

/-- The same, phrased on `broadcast` with a registry split around the first
failing recipient. -/
theorem broadcast_out_firstFail (st : ServerState) (msg : String)
    (pre : List Nat) (bad : Nat) (post : List Nat)
    (hcc : st.connected_clients = pre ++ bad :: post)
    (hpre : ∀ i ∈ pre, st.stdoutFails i = false)
    (hbad : st.stdoutFails bad = true) :
    broadcast st msg false =
      (deliverOut pre (strip_crlf msg ++ "\n") st, some Exn.oserror) := by
  unfold broadcast
  rw [hcc]
  exact broadcastLoop_out_firstFail pre bad post _ st hpre hbad

/-! ### Concrete demonstration states -/

/-- Demo state: one already-connected client, id 7, every sink healthy. -/
def demoState : ServerState where
  connected_clients := [7]
  stdoutBuf := fun _ => []
  stderrBuf := fun _ => []
  stdoutFails := fun _ => false
  stderrFails := fun _ => false
  serverOut := []
  serverErr := []
  exitCalls := []
  regTrace := []
  stdinReadStarted := false

/-- Demo state for broadcast-failure isolation: clients 5 and 6 registered,
client 5's primary sink failing. -/
def failState : ServerState where
  connected_clients := [5, 6]
  stdoutBuf := fun _ => []
  stderrBuf := fun _ => []
  stdoutFails := fun j => j == 5
  stderrFails := fun _ => false
  serverOut := []
  serverErr := []
  exitCalls := []
  regTrace := []
  stdinReadStarted := false

/-- Demo state with one registered client, id 3, for the unregister claims. -/
def regState : ServerState where
  connected_clients := [3]
  stdoutBuf := fun _ => []
  stderrBuf := fun _ => []
  stdoutFails := fun _ => false
  stderrFails := fun _ => false
  serverOut := []
  serverErr := []
  exitCalls := []
  regTrace := []
  stdinReadStarted := false

/-! ### Claim theorems -/

/-- Claim C3: `validate_public_key` accepts exactly the pairs (username, key)
where the username is in the identity table and the key is one of that
username's authorized keys. For a username absent from the table the
right-hand side is unsatisfiable, so the result is `false` whatever the key;
and the function is total by construction — the bare `except` of the source
is the `none` branch of the lookup, so every lookup fault becomes rejection
rather than an escaping exception. -/
theorem validate_public_key_iff (d : List (String × List String))
    (u k : String) :
    validate_public_key d u k = true ↔
      ∃ aks, lookupDict d u = some aks ∧ k ∈ aks := by
  unfold validate_public_key
  cases h : lookupDict d u with
  | none => simp
  | some aks => simp [authKeysValidate, List.find?_isSome]

/-- Claim C4 counterexample: on input "\nhi" (a leading line terminator) the
code delivers "hi\n" on the primary channel — the leading LF is stripped too —
while the claim's trailing-only normalization `rstrip_crlf` predicts "\nhi\n",
a different string. -/
theorem broadcast_strips_leading_cex :
    (broadcast demoState "\nhi" false).1.stdoutBuf 7 = ["hi\n"] ∧
    rstrip_crlf "\nhi" ++ "\n" = "\nhi\n" ∧
    ("hi\n" : String) ≠ "\nhi\n" := by
  refine ⟨by decide, by decide, by decide⟩

/-- Claim C4 (amended): `broadcast` delivers to every registered recipient the
input text with ALL leading and trailing CR/LF characters removed (Python
`strip("\r\n")` strips both ends, not only the trailing terminator) plus the
canonical terminator — LF on the primary channel, CR+LF on the diagnostic
channel — one copy per occurrence of the recipient in the registry, and no
write raises when every sink is healthy. -/
theorem broadcast_normalizes (st : ServerState) (msg : String)
    (hout : ∀ i, st.stdoutFails i = false)
    (herr : ∀ i, st.stderrFails i = false) :
    (∀ j, (broadcast st msg false).1.stdoutBuf j
        = st.stdoutBuf j
          ++ List.replicate (st.connected_clients.count j)
               (strip_crlf msg ++ "\n")) ∧
    (∀ j, (broadcast st msg true).1.stderrBuf j
        = st.stderrBuf j
          ++ List.replicate (st.connected_clients.count j)
               (strip_crlf msg ++ "\r\n")) ∧
    (broadcast st msg false).2 = none ∧
    (broadcast st msg true).2 = none := by
  rw [broadcast_out_fine st msg hout, broadcast_err_fine st msg herr]
  exact ⟨fun j => rfl, fun j => rfl, rfl, rfl⟩

/-- Witness for the amended C4 theorem at a concrete input. -/
theorem broadcast_normalizes_witness :
    (∀ j, (broadcast demoState "x\r\n" false).1.stdoutBuf j
        = demoState.stdoutBuf j
          ++ List.replicate (demoState.connected_clients.count j)
               (strip_crlf "x\r\n" ++ "\n")) ∧
    (∀ j, (broadcast demoState "x\r\n" true).1.stderrBuf j
        = demoState.stderrBuf j
          ++ List.replicate (demoState.connected_clients.count j)
               (strip_crlf "x\r\n" ++ "\r\n")) ∧
    (broadcast demoState "x\r\n" false).2 = none ∧
    (broadcast demoState "x\r\n" true).2 = none :=
  broadcast_normalizes demoState "x\r\n" (fun _ => rfl) (fun _ => rfl)

/-- Claim C5 counterexample: in `failState` (registry [5, 6], client 5's
primary sink failing) a primary-channel broadcast delivers nothing to client 6
— a remaining recipient of the snapshot — and the write failure propagates out
of `broadcast` instead of being collected. -/
theorem broadcast_failure_not_isolated_cex :
    (broadcast failState "hi" false).1.stdoutBuf 6 = [] ∧
    (broadcast failState "hi" false).2 = some Exn.oserror := ⟨rfl, rfl⟩

/-- Claim C5 (amended): a write failure on one recipient ABORTS the fan-out:
recipients before the first failing one in the snapshot receive the message,
the failing one and every later recipient receive nothing, and the failure
propagates out of `broadcast` — there is no per-recipient isolation and no
collection of failures. -/
theorem broadcast_write_failure_aborts (st : ServerState) (msg : String)
    (pre : List Nat) (bad : Nat) (post : List Nat)
    (hcc : st.connected_clients = pre ++ bad :: post)
    (hpre : ∀ i ∈ pre, st.stdoutFails i = false)
    (hbad : st.stdoutFails bad = true) :
    (∀ j, (broadcast st msg false).1.stdoutBuf j
        = st.stdoutBuf j
          ++ List.replicate (pre.count j) (strip_crlf msg ++ "\n")) ∧
    (broadcast st msg false).2 = some Exn.oserror := by
  rw [broadcast_out_firstFail st msg pre bad post hcc hpre hbad]
  exact ⟨fun j => rfl, rfl⟩

/-- Witness for the amended C5 theorem at a concrete input. -/
theorem broadcast_write_failure_aborts_witness :
    (∀ j, (broadcast failState "hi" false).1.stdoutBuf j
        = failState.stdoutBuf j
          ++ List.replicate (List.count j ([] : List Nat))
               (strip_crlf "hi" ++ "\n")) ∧
    (broadcast failState "hi" false).2 = some Exn.oserror :=
  broadcast_write_failure_aborts failState "hi" [] 5 [6] rfl (by simp) rfl

/-- Claim C7 counterexample: in `regState` (registry [3]) a first unregister
of session 3 succeeds; the second call for the same session raises
`ValueError` — the operation is not idempotent-safe as the claim states. -/
theorem unregister_second_call_raises_cex :
    (unregister regState 3).2 = none ∧
    (unregister (unregister regState 3).1 3).2 = some Exn.valueError :=
  ⟨rfl, rfl⟩

/-- Claim C7 (amended): `unregister` — the `connected_clients.remove(process)`
of the teardown — called for a session not in the registry (a second call for
the same session, or one never registered) raises `ValueError` instead of
being a no-op. The registry list itself is left unchanged (uncorrupted), but
the teardown propagates the exception past the handler boundary; the handler
avoids this only because it unregisters exactly once per registered session. -/
theorem unregister_absent_raises (st : ServerState) (sid : Nat) (u : String)
    (h : sid ∉ st.connected_clients) :
    unregister st sid = (st, some Exn.valueError) ∧
    (sessionTeardown st sid u).2 = some Exn.valueError := by
  have hr : pyListRemove st.connected_clients sid = none :=
    pyListRemove_absent _ _ h
  constructor
  · unfold unregister
    rw [hr]
  · unfold sessionTeardown unregister
    dsimp only
    rw [hr]

/-- Witness for the amended C7 theorem at a concrete input. -/
theorem unregister_absent_raises_witness :
    unregister demoState 0 = (demoState, some Exn.valueError) ∧
    (sessionTeardown demoState 0 "alice").2 = some Exn.valueError :=
  unregister_absent_raises demoState 0 "alice" (by decide)

/-- Claim C1 is violated by the code: with input events [TerminalSizeChanged,
line "hi"], the `break` in the read loop's `finally` clause supersedes the
`continue` of the `except TerminalSizeChanged` handler, so the loop exits —
the session terminates (exit recorded, registered then unregistered) and the
line "hi" arriving after the resize is never broadcast: every primary sink
stays empty. This contradicts the claim and the source's own comment on
asserver.py line 77. -/
theorem resize_terminates_session :
    (handle_connection demoState 0 "alice" none
        [InEvent.resized, InEvent.line "hi"]).1.stdoutBuf 7 = [] ∧
    (handle_connection demoState 0 "alice" none
        [InEvent.resized, InEvent.line "hi"]).1.stdoutBuf 0 = [] ∧
    (handle_connection demoState 0 "alice" none
        [InEvent.resized, InEvent.line "hi"]).1.exitCalls = [(0, 0)] ∧
    (handle_connection demoState 0 "alice" none
        [InEvent.resized, InEvent.line "hi"]).1.regTrace
      = [RegEvent.reg 0, RegEvent.unreg 0] ∧
    (handle_connection demoState 0 "alice" none
        [InEvent.resized, InEvent.line "hi"]).2 = none :=
  ⟨rfl, rfl, rfl, rfl, rfl⟩

/-- Claim C2 counterexample: a read fault RuntimeError("boom") in interactive
mode is logged nowhere — the session's own diagnostic sink receives only the
arrival notice (no entry carrying the fault's kind or message), the server
console only the arrival and departure notices — yet the claim requires the
kind and message on the session's diagnostic sink. -/
theorem read_fault_unlogged_cex :
    (handle_connection demoState 0 "alice" none
        [InEvent.readErr "RuntimeError" "boom"]).1.stderrBuf 0
      = ["[connected] alice\r\n"] ∧
    (handle_connection demoState 0 "alice" none
        [InEvent.readErr "RuntimeError" "boom"]).1.serverErr
      = ["[connected] alice\n", "[disconnected] alice\n"] ∧
    (handle_connection demoState 0 "alice" none
        [InEvent.readErr "RuntimeError" "boom"]).2 = none :=
  ⟨rfl, rfl, rfl⟩

/-- Claim C2 (amended): in InteractiveMode, a fault other than a resize, a
break or end-of-input while reading a line is silently discarded — the
`break` in the loop's `finally` clause drops the exception before the outer
handlers can log it — so nothing is written to the session's diagnostic sink
beyond its arrival notice, nothing to any primary sink, no exception escapes
the handler, and the session proceeds to the ordinary Closing teardown. -/
theorem read_fault_silent (st : ServerState) (sid : Nat) (u k m : String)
    (hfresh : sid ∉ st.connected_clients)
    (herr : ∀ i, st.stderrFails i = false) :
    (handle_connection st sid u none [InEvent.readErr k m]).2 = none ∧
    (∀ j, (handle_connection st sid u none [InEvent.readErr k m]).1.stdoutBuf j
        = st.stdoutBuf j) ∧
    (handle_connection st sid u none [InEvent.readErr k m]).1.serverErr
      = st.serverErr ++ [connectedMsg u, disconnectedMsg u] ∧
    (handle_connection st sid u none [InEvent.readErr k m]).1.stderrBuf sid
      = st.stderrBuf sid ++ [strip_crlf (connectedMsg u) ++ "\r\n"] ∧
    (handle_connection st sid u none [InEvent.readErr k m]).1.exitCalls
      = st.exitCalls ++ [(sid, 0)] := by
  have h := handle_connection_abort st sid u [InEvent.readErr k m]
    (some (Exn.otherErr k m)) (fun s => readLoop_readErr s u k m) hfresh herr
  rw [h]
  have hc : st.connected_clients.count sid = 0 := List.count_eq_zero.mpr hfresh
  refine ⟨rfl, fun j => rfl, rfl, ?_, rfl⟩
  simp [deliverErr, List.count_append, List.count_cons_self, List.count_nil, hc]

/-- Witness for the amended C2 theorem at a concrete input. -/
theorem read_fault_silent_witness :
    (handle_connection demoState 0 "alice" none
        [InEvent.readErr "KeyError" "oops"]).2 = none ∧
    (handle_connection demoState 0 "alice" none
        [InEvent.readErr "KeyError" "oops"]).1.serverErr
      = demoState.serverErr ++ [connectedMsg "alice", disconnectedMsg "alice"] := by
  have h := read_fault_silent demoState 0 "alice" "KeyError" "oops"
    (by decide) (fun _ => rfl)
  exact ⟨h.1, h.2.2.1⟩

/-- Claim C6: over every command/event combination — one-shot command,
end-of-input, break, empty line, resize, or any read fault — a session
handled from establishment to termination is added to the registry exactly
once and removed exactly once (the ghost trace gains exactly one `reg` then
one `unreg`, so the session is registered precisely between the append at
establishment and the remove at Closing), the registry ends exactly as it
began, and the exit call of Closing is issued exactly once. -/
theorem session_registered_once (st : ServerState) (sid : Nat) (u : String)
    (cmd : Option String) (events : List InEvent)
    (hfresh : sid ∉ st.connected_clients) :
    (handle_connection st sid u cmd events).1.connected_clients
      = st.connected_clients ∧
    (handle_connection st sid u cmd events).1.regTrace
      = st.regTrace ++ [RegEvent.reg sid, RegEvent.unreg sid] ∧
    (handle_connection st sid u cmd events).1.exitCalls
      = st.exitCalls ++ [(sid, 0)] :=
  handle_connection_registry st sid u cmd events hfresh

/-- Witness for the C6 theorem at a concrete input. -/
theorem session_registered_once_witness :
    (handle_connection demoState 0 "alice" none [InEvent.brk]).1.connected_clients
      = demoState.connected_clients ∧
    (handle_connection demoState 0 "alice" none [InEvent.brk]).1.regTrace
      = demoState.regTrace ++ [RegEvent.reg 0, RegEvent.unreg 0] ∧
    (handle_connection demoState 0 "alice" none [InEvent.brk]).1.exitCalls
      = demoState.exitCalls ++ [(0, 0)] :=
  session_registered_once demoState 0 "alice" none [InEvent.brk] (by decide)

/-- Claim C8: a session connecting with a one-shot command broadcasts exactly
one chat message — the username, a colon separator, and the stripped command
text — on the primary channel (one copy per registry occurrence of each
recipient, the session itself included), never starts reading its input
stream (the read-entry flag stays unset and the whole result is independent
of the stream's events), and then proceeds directly to Closing. -/
theorem command_mode_single_message (st : ServerState) (sid : Nat)
    (u cmd : String) (events : List InEvent)
    (hfresh : sid ∉ st.connected_clients)
    (hout : ∀ i, st.stdoutFails i = false)
    (herr : ∀ i, st.stderrFails i = false)
    (hnr : st.stdinReadStarted = false) :
    (∀ j, (handle_connection st sid u (some cmd) events).1.stdoutBuf j
        = st.stdoutBuf j
          ++ List.replicate ((st.connected_clients ++ [sid]).count j)
               (strip_crlf (chatMsg u (strip_crlf cmd)) ++ "\n")) ∧
    (handle_connection st sid u (some cmd) events).1.stdinReadStarted = false ∧
    handle_connection st sid u (some cmd) events
      = handle_connection st sid u (some cmd) [] ∧
    (handle_connection st sid u (some cmd) events).1.exitCalls
      = st.exitCalls ++ [(sid, 0)] ∧
    (handle_connection st sid u (some cmd) events).1.regTrace
      = st.regTrace ++ [RegEvent.reg sid, RegEvent.unreg sid] ∧
    (handle_connection st sid u (some cmd) events).2 = none := by
  have h := handle_connection_command st sid u cmd events hfresh hout herr
  have h0 := handle_connection_command st sid u cmd [] hfresh hout herr
  rw [h, h0]
  exact ⟨fun j => rfl, hnr, rfl, rfl, rfl, rfl⟩

/-- Witness for the C8 theorem at a concrete input. -/
theorem command_mode_single_message_witness :
    (∀ j, (handle_connection demoState 0 "carol" (some "hello there")
        [InEvent.line "never read"]).1.stdoutBuf j
        = demoState.stdoutBuf j
          ++ List.replicate ((demoState.connected_clients ++ [0]).count j)
               (strip_crlf (chatMsg "carol" (strip_crlf "hello there")) ++ "\n")) ∧
    (handle_connection demoState 0 "carol" (some "hello there")
        [InEvent.line "never read"]).1.stdinReadStarted = false ∧
    handle_connection demoState 0 "carol" (some "hello there")
        [InEvent.line "never read"]
      = handle_connection demoState 0 "carol" (some "hello there") [] ∧
    (handle_connection demoState 0 "carol" (some "hello there")
        [InEvent.line "never read"]).1.exitCalls
      = demoState.exitCalls ++ [(0, 0)] ∧
    (handle_connection demoState 0 "carol" (some "hello there")
        [InEvent.line "never read"]).1.regTrace
      = demoState.regTrace ++ [RegEvent.reg 0, RegEvent.unreg 0] ∧
    (handle_connection demoState 0 "carol" (some "hello there")
        [InEvent.line "never read"]).2 = none :=
  command_mode_single_message demoState 0 "carol" "hello there"
    [InEvent.line "never read"] (by decide) (fun _ => rfl) (fun _ => rfl) rfl

/-- Claim C9: an empty line read in InteractiveMode acts exactly as a break
signal — the handler's result (state and propagated exception) is literally
the same as for a break event — the empty line is never broadcast (every
primary sink is untouched), no error entry appears anywhere, and the session
proceeds to Closing, each remaining registered client receiving exactly one
departure notice (one per registry occurrence) and the departing session
receiving none. -/
theorem empty_line_acts_as_break (st : ServerState) (sid : Nat) (u : String)
    (hfresh : sid ∉ st.connected_clients)
    (herr : ∀ i, st.stderrFails i = false) :
    handle_connection st sid u none [InEvent.line ""]
      = handle_connection st sid u none [InEvent.brk] ∧
    (∀ j, (handle_connection st sid u none [InEvent.line ""]).1.stdoutBuf j
        = st.stdoutBuf j) ∧
    (handle_connection st sid u none [InEvent.line ""]).1.serverErr
      = st.serverErr ++ [connectedMsg u, disconnectedMsg u] ∧
    (∀ j, (handle_connection st sid u none [InEvent.line ""]).1.stderrBuf j
        = st.stderrBuf j
          ++ List.replicate ((st.connected_clients ++ [sid]).count j)
               (strip_crlf (connectedMsg u) ++ "\r\n")
          ++ List.replicate (st.connected_clients.count j)
               (strip_crlf (disconnectedMsg u) ++ "\r\n")) ∧
    (handle_connection st sid u none [InEvent.line ""]).2 = none := by
  have h1 := handle_connection_abort st sid u [InEvent.line ""]
    (some Exn.breakReceived) (fun s => readLoop_empty_line s u) hfresh herr
  have h2 := handle_connection_abort st sid u [InEvent.brk]
    (some Exn.breakReceived) (fun s => readLoop_brk s u) hfresh herr
  rw [h1, h2]
  refine ⟨rfl, fun j => rfl, rfl, fun j => ?_, rfl⟩
  simp [deliverErr, List.append_assoc]

/-- Witness for the C9 theorem at a concrete input. -/
theorem empty_line_acts_as_break_witness :
    handle_connection demoState 0 "alice" none [InEvent.line ""]
      = handle_connection demoState 0 "alice" none [InEvent.brk] ∧
    (handle_connection demoState 0 "alice" none
        [InEvent.line ""]).1.stdoutBuf 7 = demoState.stdoutBuf 7 := by
  have h := empty_line_acts_as_break demoState 0 "alice" (by decide) (fun _ => rfl)
  exact ⟨h.1, h.2.1 7⟩

/-- Claim C10: a session that sends one chat line receives its own arrival
notice on its diagnostic sink (registration precedes the arrival broadcast,
which writes to every registered session, originator included) and its own
chat message on its primary sink, but never its own departure notice: removal
from the registry precedes the departure broadcast, so the session's
diagnostic sink ends with exactly the arrival notice and nothing after it. -/
theorem session_receives_own_messages (st : ServerState) (sid : Nat)
    (u l : String) (hl : ¬ l = "")
    (hfresh : sid ∉ st.connected_clients)
    (hout : ∀ i, st.stdoutFails i = false)
    (herr : ∀ i, st.stderrFails i = false) :
    (handle_connection st sid u none [InEvent.line l]).1.stderrBuf sid
      = st.stderrBuf sid ++ [strip_crlf (connectedMsg u) ++ "\r\n"] ∧
    (handle_connection st sid u none [InEvent.line l]).1.stdoutBuf sid
      = st.stdoutBuf sid ++ [strip_crlf (chatMsg u (strip_crlf l)) ++ "\n"] := by
  rw [handle_connection_one_line st sid u l hl hfresh hout herr]
  have hc : st.connected_clients.count sid = 0 := List.count_eq_zero.mpr hfresh
  constructor
  · simp [deliverErr, deliverOut, List.count_append, List.count_cons_self,
      List.count_nil, hc]
  · simp [deliverErr, deliverOut, List.count_append, List.count_cons_self,
      List.count_nil, hc]

/-- Witness for the C10 theorem at a concrete input. -/
theorem session_receives_own_messages_witness :
    (handle_connection demoState 0 "alice" none
        [InEvent.line "hi"]).1.stderrBuf 0
      = demoState.stderrBuf 0 ++ [strip_crlf (connectedMsg "alice") ++ "\r\n"] ∧
    (handle_connection demoState 0 "alice" none
        [InEvent.line "hi"]).1.stdoutBuf 0
      = demoState.stdoutBuf 0
          ++ [strip_crlf (chatMsg "alice" (strip_crlf "hi")) ++ "\n"] :=
  session_receives_own_messages demoState 0 "alice" "hi" (by decide)
    (by decide) (fun _ => rfl) (fun _ => rfl)

end AssPy
